import Mathlib

/-
Verification of the vehicle-tco-model projection engine (src/revenue_model.py).

Modeling conventions:
- Python floats are modeled as exact rationals (ℚ); all arithmetic in the
  source is +, -, *, /, ** and min, which ℚ supports exactly.
- Python `int(x)` (truncation toward zero) is modeled by `py_int`.
- Python ints that participate in float arithmetic are modeled as ℚ.
- Fallible control flow (exception propagation out of the sensitivity loop)
  is modeled with `Except`.
-/

/-- Truncation toward zero, the semantics of Python `int()` on a number:
floor for nonnegative values, ceiling for negative ones. -/
def py_int (q : ℚ) : ℤ := if 0 ≤ q then ⌊q⌋ else ⌈q⌉

/-- Arithmetic mean of a list, the semantics of `np.mean` (sum divided by length). -/
def np_mean (l : List ℚ) : ℚ := l.sum / (l.length : ℚ)

/-! ## Partnership model configuration (src/revenue_model.py lines 6-57, 94-103) -/

/-- UserBase dataclass (defaults 25000, 0.08, 0.65, 0.03). -/
structure UserBase where
  active_users : ℚ
  monthly_growth_rate : ℚ
  engagement_rate : ℚ
  churn_rate : ℚ
  deriving DecidableEq

/-- ServiceProviders dataclass. -/
structure ServiceProviders where
  avg_commission_rate : ℚ
  bookings_per_1k_users : ℚ
  avg_service_value : ℚ
  major_partners : ℚ
  deriving DecidableEq

/-- Insurance dataclass. -/
structure Insurance where
  referral_commission : ℚ
  conversion_rate : ℚ
  claims_processing_fee : ℚ
  claims_per_1k_users : ℚ
  policy_retention_bonus : ℚ
  deriving DecidableEq

/-- PartsRetail dataclass. -/
structure PartsRetail where
  commission_rate : ℚ
  orders_per_1k_users : ℚ
  avg_order_value : ℚ
  return_rate : ℚ
  major_retailers : ℚ
  deriving DecidableEq

/-- FinancialServices dataclass. -/
structure FinancialServices where
  monthly_fee_per_user : ℚ
  connection_rate : ℚ
  transaction_fee : ℚ
  transactions_per_user : ℚ
  premium_upgrade_rate : ℚ
  deriving DecidableEq

/-- DataServices dataclass. -/
structure DataServices where
  vehicle_data_fee : ℚ
  queries_per_user : ℚ
  valuation_fee : ℚ
  valuations_per_1k_users : ℚ
  api_licensing_monthly : ℚ
  deriving DecidableEq

/-- The mutable state of a PartnershipRevenueModel instance: its six
configuration sub-objects, as created in `__init__`. -/
structure PModel where
  user_base : UserBase
  service_providers : ServiceProviders
  insurance : Insurance
  parts_retail : PartsRetail
  financial_services : FinancialServices
  data_services : DataServices
  deriving DecidableEq

/-- The default PartnershipRevenueModel configuration (all dataclass defaults). -/
def defaultPModel : PModel :=
  { user_base := { active_users := 25000, monthly_growth_rate := 8/100,
                   engagement_rate := 65/100, churn_rate := 3/100 }
    service_providers := { avg_commission_rate := 12/100, bookings_per_1k_users := 25,
                           avg_service_value := 200, major_partners := 15 }
    insurance := { referral_commission := 75, conversion_rate := 35/1000,
                   claims_processing_fee := 15, claims_per_1k_users := 8,
                   policy_retention_bonus := 25 }
    parts_retail := { commission_rate := 8/100, orders_per_1k_users := 45,
                      avg_order_value := 125, return_rate := 5/100, major_retailers := 8 }
    financial_services := { monthly_fee_per_user := 5/2, connection_rate := 45/100,
                            transaction_fee := 25/100, transactions_per_user := 12,
                            premium_upgrade_rate := 15/100 }
    data_services := { vehicle_data_fee := 5/10, queries_per_user := 8, valuation_fee := 3,
                       valuations_per_1k_users := 15, api_licensing_monthly := 2500 } }

/-! ## Partnership model: user metrics and revenue streams (lines 105-234) -/

/-- The float value of the `base_users` variable of `calculate_user_metrics`
after `t` iterations of the growth/churn loop (lines 107-113):
start at `active_users`; each iteration adds `base * growth` and subtracts
`base * churn`, both computed from the same prior value. -/
def base_users (m : PModel) : ℕ → ℚ
  | 0 => m.user_base.active_users
  | t + 1 =>
    base_users m t + base_users m t * m.user_base.monthly_growth_rate
      - base_users m t * m.user_base.churn_rate

/-- The result dictionary of `calculate_user_metrics` (lines 115-121); each
entry is truncated with `int()`. -/
structure UserMetrics where
  total_users : ℤ
  active_users : ℤ
  engaged_users : ℤ
  deriving DecidableEq

/-- calculate_user_metrics (lines 105-121). -/
def calculate_user_metrics (m : PModel) (month : ℕ) : UserMetrics :=
  { total_users := py_int (base_users m month)
    active_users := py_int (base_users m month)
    engaged_users := py_int (base_users m month * m.user_base.engagement_rate) }

/-- calculate_service_revenue (lines 123-136). -/
def calculate_service_revenue (m : PModel) (users : UserMetrics) : ℚ :=
  let monthly_bookings := ((users.engaged_users : ℚ) / 1000) * m.service_providers.bookings_per_1k_users
  let total_booking_value := monthly_bookings * m.service_providers.avg_service_value
  total_booking_value * m.service_providers.avg_commission_rate

/-- calculate_insurance_revenue (lines 138-153). -/
def calculate_insurance_revenue (m : PModel) (users : UserMetrics) : ℚ :=
  let policy_referrals := (users.active_users : ℚ) * m.insurance.conversion_rate
  let referral_revenue := policy_referrals * m.insurance.referral_commission
  let monthly_claims := ((users.active_users : ℚ) / 1000) * m.insurance.claims_per_1k_users
  let claims_revenue := monthly_claims * m.insurance.claims_processing_fee
  let retention_bonus := (policy_referrals * (25/100)) * m.insurance.policy_retention_bonus
  referral_revenue + claims_revenue + retention_bonus

/-- calculate_parts_revenue (lines 155-171). -/
def calculate_parts_revenue (m : PModel) (users : UserMetrics) : ℚ :=
  let monthly_orders := ((users.engaged_users : ℚ) / 1000) * m.parts_retail.orders_per_1k_users
  let net_orders := monthly_orders * (1 - m.parts_retail.return_rate)
  let total_order_value := net_orders * m.parts_retail.avg_order_value
  total_order_value * m.parts_retail.commission_rate

/-- calculate_financial_revenue (lines 173-191). -/
def calculate_financial_revenue (m : PModel) (users : UserMetrics) : ℚ :=
  let connected_users := (users.active_users : ℚ) * m.financial_services.connection_rate
  let subscription_revenue := connected_users * m.financial_services.monthly_fee_per_user
  let total_transactions := connected_users * m.financial_services.transactions_per_user
  let transaction_revenue := total_transactions * m.financial_services.transaction_fee
  let premium_users := connected_users * m.financial_services.premium_upgrade_rate
  let premium_revenue := premium_users * 5
  subscription_revenue + transaction_revenue + premium_revenue

/-- calculate_data_revenue (lines 193-208). -/
def calculate_data_revenue (m : PModel) (users : UserMetrics) : ℚ :=
  let monthly_queries := (users.active_users : ℚ) * m.data_services.queries_per_user
  let query_revenue := monthly_queries * m.data_services.vehicle_data_fee
  let monthly_valuations := ((users.active_users : ℚ) / 1000) * m.data_services.valuations_per_1k_users
  let valuation_revenue := monthly_valuations * m.data_services.valuation_fee
  let api_revenue := m.data_services.api_licensing_monthly * min ((users.active_users : ℚ) / 10000) 5
  query_revenue + valuation_revenue + api_revenue

/-- One row of the projection table, the dictionary built by
`calculate_monthly_revenue` (lines 223-234). -/
structure MonthRow where
  month : ℕ
  total_users : ℤ
  active_users : ℤ
  engaged_users : ℤ
  service_revenue : ℚ
  insurance_revenue : ℚ
  parts_revenue : ℚ
  financial_revenue : ℚ
  data_revenue : ℚ
  total_monthly_revenue : ℚ
  deriving DecidableEq

/-- A zero row, used as the (never reached) default for list indexing. -/
def mrow0 : MonthRow := ⟨0, 0, 0, 0, 0, 0, 0, 0, 0, 0⟩

/-- calculate_monthly_revenue (lines 210-234). -/
def calculate_monthly_revenue (m : PModel) (month : ℕ) : MonthRow :=
  let users := calculate_user_metrics m month
  let service_revenue := calculate_service_revenue m users
  let insurance_revenue := calculate_insurance_revenue m users
  let parts_revenue := calculate_parts_revenue m users
  let financial_revenue := calculate_financial_revenue m users
  let data_revenue := calculate_data_revenue m users
  let total_revenue := service_revenue + insurance_revenue + parts_revenue
    + financial_revenue + data_revenue
  { month := month
    total_users := users.total_users
    active_users := users.active_users
    engaged_users := users.engaged_users
    service_revenue := service_revenue
    insurance_revenue := insurance_revenue
    parts_revenue := parts_revenue
    financial_revenue := financial_revenue
    data_revenue := data_revenue
    total_monthly_revenue := total_revenue }

/-- run_projection (lines 236-244): one row per month in `range(months + 1)`. -/
def run_projection (m : PModel) (months : ℕ) : List MonthRow :=
  (List.range (months + 1)).map (calculate_monthly_revenue m)

/-! ## Sensitivity analysis (lines 246-273)

The source iterates over candidate values; for a dotted parameter name it
saves the attribute, overwrites it, reruns the projection, appends a result
row and then restores the attribute.  There is no `try`/`except` around the
rerun, so an exception raised by it would propagate out of the method with
the candidate value still applied; to make that control flow statable the
rerun step is abstracted as a fallible function (`Except`), and the model's
actual rerun — `run_projection(projection_months)`, which never raises — is
the total instantiation `fun mm => Except.ok (run_projection mm months)`
used by `sensitivity_analysis` below. -/

/-- A dotted parameter name `obj.attr`, one constructor per numeric field of
the six configuration objects (the only attributes `setattr` can target). -/
inductive ParamRef where
  | ub_active_users | ub_monthly_growth_rate | ub_engagement_rate | ub_churn_rate
  | sp_avg_commission_rate | sp_bookings_per_1k_users | sp_avg_service_value | sp_major_partners
  | ins_referral_commission | ins_conversion_rate | ins_claims_processing_fee
  | ins_claims_per_1k_users | ins_policy_retention_bonus
  | pr_commission_rate | pr_orders_per_1k_users | pr_avg_order_value | pr_return_rate
  | pr_major_retailers
  | fs_monthly_fee_per_user | fs_connection_rate | fs_transaction_fee
  | fs_transactions_per_user | fs_premium_upgrade_rate
  | ds_vehicle_data_fee | ds_queries_per_user | ds_valuation_fee
  | ds_valuations_per_1k_users | ds_api_licensing_monthly
  deriving DecidableEq

/-- A parameter name given to `sensitivity_analysis`: either dotted
(`obj.attr`) or a bare attribute name (one of the six sub-config objects;
any other bare name makes the source raise at line 249 before the loop). -/
inductive SweepParam where
  | field (r : ParamRef)
  | plain (name : Fin 6)
  deriving DecidableEq

/-- The `getattr(getattr(self, obj_name), attr_name)` read (line 256). -/
def getParam (m : PModel) : ParamRef → ℚ
  | ParamRef.ub_active_users => m.user_base.active_users
  | ParamRef.ub_monthly_growth_rate => m.user_base.monthly_growth_rate
  | ParamRef.ub_engagement_rate => m.user_base.engagement_rate
  | ParamRef.ub_churn_rate => m.user_base.churn_rate
  | ParamRef.sp_avg_commission_rate => m.service_providers.avg_commission_rate
  | ParamRef.sp_bookings_per_1k_users => m.service_providers.bookings_per_1k_users
  | ParamRef.sp_avg_service_value => m.service_providers.avg_service_value
  | ParamRef.sp_major_partners => m.service_providers.major_partners
  | ParamRef.ins_referral_commission => m.insurance.referral_commission
  | ParamRef.ins_conversion_rate => m.insurance.conversion_rate
  | ParamRef.ins_claims_processing_fee => m.insurance.claims_processing_fee
  | ParamRef.ins_claims_per_1k_users => m.insurance.claims_per_1k_users
  | ParamRef.ins_policy_retention_bonus => m.insurance.policy_retention_bonus
  | ParamRef.pr_commission_rate => m.parts_retail.commission_rate
  | ParamRef.pr_orders_per_1k_users => m.parts_retail.orders_per_1k_users
  | ParamRef.pr_avg_order_value => m.parts_retail.avg_order_value
  | ParamRef.pr_return_rate => m.parts_retail.return_rate
  | ParamRef.pr_major_retailers => m.parts_retail.major_retailers
  | ParamRef.fs_monthly_fee_per_user => m.financial_services.monthly_fee_per_user
  | ParamRef.fs_connection_rate => m.financial_services.connection_rate
  | ParamRef.fs_transaction_fee => m.financial_services.transaction_fee
  | ParamRef.fs_transactions_per_user => m.financial_services.transactions_per_user
  | ParamRef.fs_premium_upgrade_rate => m.financial_services.premium_upgrade_rate
  | ParamRef.ds_vehicle_data_fee => m.data_services.vehicle_data_fee
  | ParamRef.ds_queries_per_user => m.data_services.queries_per_user
  | ParamRef.ds_valuation_fee => m.data_services.valuation_fee
  | ParamRef.ds_valuations_per_1k_users => m.data_services.valuations_per_1k_users
  | ParamRef.ds_api_licensing_monthly => m.data_services.api_licensing_monthly

/-- The `setattr(getattr(self, obj_name), attr_name, value)` write (line 257). -/
def setParam (m : PModel) : ParamRef → ℚ → PModel
  | ParamRef.ub_active_users, v => { m with user_base := { m.user_base with active_users := v } }
  | ParamRef.ub_monthly_growth_rate, v => { m with user_base := { m.user_base with monthly_growth_rate := v } }
  | ParamRef.ub_engagement_rate, v => { m with user_base := { m.user_base with engagement_rate := v } }
  | ParamRef.ub_churn_rate, v => { m with user_base := { m.user_base with churn_rate := v } }
  | ParamRef.sp_avg_commission_rate, v => { m with service_providers := { m.service_providers with avg_commission_rate := v } }
  | ParamRef.sp_bookings_per_1k_users, v => { m with service_providers := { m.service_providers with bookings_per_1k_users := v } }
  | ParamRef.sp_avg_service_value, v => { m with service_providers := { m.service_providers with avg_service_value := v } }
  | ParamRef.sp_major_partners, v => { m with service_providers := { m.service_providers with major_partners := v } }
  | ParamRef.ins_referral_commission, v => { m with insurance := { m.insurance with referral_commission := v } }
  | ParamRef.ins_conversion_rate, v => { m with insurance := { m.insurance with conversion_rate := v } }
  | ParamRef.ins_claims_processing_fee, v => { m with insurance := { m.insurance with claims_processing_fee := v } }
  | ParamRef.ins_claims_per_1k_users, v => { m with insurance := { m.insurance with claims_per_1k_users := v } }
  | ParamRef.ins_policy_retention_bonus, v => { m with insurance := { m.insurance with policy_retention_bonus := v } }
  | ParamRef.pr_commission_rate, v => { m with parts_retail := { m.parts_retail with commission_rate := v } }
  | ParamRef.pr_orders_per_1k_users, v => { m with parts_retail := { m.parts_retail with orders_per_1k_users := v } }
  | ParamRef.pr_avg_order_value, v => { m with parts_retail := { m.parts_retail with avg_order_value := v } }
  | ParamRef.pr_return_rate, v => { m with parts_retail := { m.parts_retail with return_rate := v } }
  | ParamRef.pr_major_retailers, v => { m with parts_retail := { m.parts_retail with major_retailers := v } }
  | ParamRef.fs_monthly_fee_per_user, v => { m with financial_services := { m.financial_services with monthly_fee_per_user := v } }
  | ParamRef.fs_connection_rate, v => { m with financial_services := { m.financial_services with connection_rate := v } }
  | ParamRef.fs_transaction_fee, v => { m with financial_services := { m.financial_services with transaction_fee := v } }
  | ParamRef.fs_transactions_per_user, v => { m with financial_services := { m.financial_services with transactions_per_user := v } }
  | ParamRef.fs_premium_upgrade_rate, v => { m with financial_services := { m.financial_services with premium_upgrade_rate := v } }
  | ParamRef.ds_vehicle_data_fee, v => { m with data_services := { m.data_services with vehicle_data_fee := v } }
  | ParamRef.ds_queries_per_user, v => { m with data_services := { m.data_services with queries_per_user := v } }
  | ParamRef.ds_valuation_fee, v => { m with data_services := { m.data_services with valuation_fee := v } }
  | ParamRef.ds_valuations_per_1k_users, v => { m with data_services := { m.data_services with valuations_per_1k_users := v } }
  | ParamRef.ds_api_licensing_monthly, v => { m with data_services := { m.data_services with api_licensing_monthly := v } }

/-- One row of the sensitivity table (lines 263-267). -/
structure SweepRow where
  parameter_value : ℚ
  final_revenue : ℚ
  revenue_change_pct : ℚ
  deriving DecidableEq

/-- The loop body of `sensitivity_analysis` (lines 252-271), threading the
mutable model state and propagating any exception of the rerun step.  For a
dotted parameter: save (line 256), overwrite (line 257), rerun (line 260),
append the row (lines 261-267), restore (lines 270-271).  For a bare name
the `if` guards skip save/overwrite/restore.  An exception of the rerun
propagates immediately: no row is appended, no restore runs, the remaining
values are not visited. -/
def sweepLoop (rerun : PModel → Except Unit (List MonthRow)) (p : SweepParam)
    (values : List ℚ) (m : PModel) : PModel × Except Unit (List SweepRow) :=
  match values with
  | [] => (m, Except.ok [])
  | v :: rest =>
    match p with
    | SweepParam.field r =>
      let original_attr_value := getParam m r
      let m1 := setParam m r v
      match rerun m1 with
      | Except.error e => (m1, Except.error e)
      | Except.ok projection =>
        let final_revenue := (projection.getLastD mrow0).total_monthly_revenue
        let row : SweepRow :=
          { parameter_value := v
            final_revenue := final_revenue
            revenue_change_pct :=
              (final_revenue / (projection.headD mrow0).total_monthly_revenue - 1) * 100 }
        let m2 := setParam m1 r original_attr_value
        let rest_result := sweepLoop rerun p rest m2
        (rest_result.1, Except.map (fun rows => row :: rows) rest_result.2)
    | SweepParam.plain _ =>
      match rerun m with
      | Except.error e => (m, Except.error e)
      | Except.ok projection =>
        let final_revenue := (projection.getLastD mrow0).total_monthly_revenue
        let row : SweepRow :=
          { parameter_value := v
            final_revenue := final_revenue
            revenue_change_pct :=
              (final_revenue / (projection.headD mrow0).total_monthly_revenue - 1) * 100 }
        let rest_result := sweepLoop rerun p rest m
        (rest_result.1, Except.map (fun rows => row :: rows) rest_result.2)

/-- sensitivity_analysis (lines 246-273): the sweep with the source's actual
rerun step, `self.run_projection(projection_months)`, which always succeeds.
Returns the final model state together with the result table. -/
def sensitivity_analysis (m : PModel) (p : SweepParam) (values : List ℚ)
    (projection_months : ℕ) : PModel × Except Unit (List SweepRow) :=
  sweepLoop (fun mm => Except.ok (run_projection mm projection_months)) p values m

/-- `projection.iloc[-1]['total_monthly_revenue']` of an unperturbed projection. -/
def terminal_revenue (m : PModel) (months : ℕ) : ℚ :=
  ((run_projection m months).getLastD mrow0).total_monthly_revenue

/-- `projection.iloc[0]['total_monthly_revenue']` of an unperturbed projection. -/
def initial_revenue (m : PModel) (months : ℕ) : ℚ :=
  ((run_projection m months).headD mrow0).total_monthly_revenue

/-! ## Vehicle TCO model configuration (lines 58-92, 311-337) -/

/-- VehicleParams dataclass (line 58). -/
structure VehicleParams where
  vehicle_type : String
  base_price : ℚ
  annual_mileage : ℚ
  ownership_years : ℕ
  deriving DecidableEq

/-- PartnershipParams dataclass (line 66); only the cardinality of the
partner lists matters to revenue, identities are opaque strings. -/
structure PartnershipParams where
  partnership_tier : String
  partner_count : ℚ
  service_providers : List String
  insurance_partners : List String
  parts_retailers : List String
  fuel_partners : List String
  financial_services : List String
  data_providers : List String
  enterprise_solutions : List String
  deriving DecidableEq

/-- MarketParams dataclass (line 79). -/
structure MarketParams where
  fuel_price : ℚ
  electricity_rate : ℚ
  inflation_rate : ℚ
  deriving DecidableEq

/-- UserGrowthParams dataclass (line 86). -/
structure UserGrowthParams where
  initial_users : ℚ
  monthly_growth_rate : ℚ
  monthly_churn_rate : ℚ
  engagement_rate : ℚ
  deriving DecidableEq

/-- A VehicleTCORevenueModel instance (lines 316-326). -/
structure TCOModel where
  vehicle : VehicleParams
  partnership : PartnershipParams
  market : MarketParams
  user_growth : UserGrowthParams
  deriving DecidableEq

/-- Literal constants for vehicle-type strings and tiers, so that string
literals never directly follow an applied name. -/
def evType : String := "Electric Vehicle"

/-- Hybrid vehicle-type string. -/
def hybridType : String := "Hybrid"

/-- Gasoline vehicle-type string. -/
def gasType : String := "Gasoline"

/-- Diesel vehicle-type string. -/
def dieselType : String := "Diesel"

/-- Basic tier string. -/
def basicTier : String := "Basic"

/-- Premium tier string. -/
def premiumTier : String := "Premium"

/-- Enterprise tier string. -/
def enterpriseTier : String := "Enterprise"

/-- A tier string not naming any known tier, for the unknown-tier scenario. -/
def unknownTier : String := "Unknown"

/-- The `partnership_multipliers` dict of `__init__` (lines 333-337) together
with the `.get(..., 1.5)` lookup of line 424: Basic 1.0, Premium 1.5,
Enterprise 2.5, anything else the default 1.5. -/
def partnership_multipliers (tier : String) : ℚ :=
  if tier = "Basic" then 1
  else if tier = "Premium" then 3/2
  else if tier = "Enterprise" then 5/2
  else 3/2

/-- The `kwh_per_mile` entry of `efficiency_params` (lines 327-332). -/
def efficiency_kwh (t : String) : ℚ :=
  if t = "Electric Vehicle" then 3/10 else if t = "Hybrid" then 1/10 else 0

/-- The `mpg` entry of `efficiency_params` (lines 327-332), including the
`.get` default dict of line 367 (`mpg` 25); the Electric Vehicle entry has no
`mpg` key and the EV branch of the fuel computation never reads one. -/
def efficiency_mpg (t : String) : ℚ :=
  if t = "Hybrid" then 50 else if t = "Gasoline" then 25
  else if t = "Diesel" then 30 else 25

/-- Depreciation-rate dict with `.get(..., 0.20)` (line 360). -/
def depreciation_rate_of (t : String) : ℚ :=
  if t = "Electric Vehicle" then 15/100 else if t = "Hybrid" then 18/100
  else if t = "Gasoline" then 20/100 else if t = "Diesel" then 22/100 else 20/100

/-- Maintenance-rate dict with `.get(..., 0.12)` (line 382). -/
def maint_rate_of (t : String) : ℚ :=
  if t = "Electric Vehicle" then 8/100 else if t = "Hybrid" then 10/100
  else if t = "Gasoline" then 12/100 else if t = "Diesel" then 15/100 else 12/100

/-- Insurance-rate dict with `.get(..., 0.05)` (line 385). -/
def ins_rate_of (t : String) : ℚ :=
  if t = "Electric Vehicle" then 4/100 else if t = "Hybrid" then 45/1000
  else if t = "Gasoline" then 5/100 else if t = "Diesel" then 55/1000 else 5/100

/-- Registration-rate dict with `.get(..., 0.015)` (line 392). -/
def reg_rate_of (t : String) : ℚ :=
  if t = "Electric Vehicle" then 1/100 else if t = "Hybrid" then 12/1000
  else if t = "Gasoline" then 15/1000 else if t = "Diesel" then 18/1000 else 15/1000

/-- `inflation = m.inflation_rate / 100` (line 358). -/
def inflation (cfg : TCOModel) : ℚ := cfg.market.inflation_rate / 100

/-- The default VehicleTCORevenueModel configuration (all dataclass defaults). -/
def defaultTCOModel : TCOModel :=
  { vehicle := { vehicle_type := evType, base_price := 45000,
                 annual_mileage := 15000, ownership_years := 5 }
    partnership := { partnership_tier := premiumTier, partner_count := 10
                     service_providers := [ "Jiffy Lube", "Mechanics", "Dealerships", "Tire Centers"]
                     insurance_partners := [ "Policy Referrals", "Claims Processing"]
                     parts_retailers := [ "AutoZone", "Amazon", "RockAuto"]
                     fuel_partners := [ "Shell", "GasBuddy"]
                     financial_services := [ "Plaid", "Credit Cards", "QuickBooks"]
                     data_providers := [ "Jato", "KBB", "CARFAX"]
                     enterprise_solutions := [ "Dealership SaaS", "Fleet Management"] }
    market := { fuel_price := 7/2, electricity_rate := 12/100, inflation_rate := 5/2 }
    user_growth := { initial_users := 1000, monthly_growth_rate := 4/100,
                     monthly_churn_rate := 1/100, engagement_rate := 7/10 } }

/-! ## User growth projection (lines 339-352) -/

/-- The value appended at position `t` of the `users` list of
`project_user_growth` (lines 340-348): the initial population at 0, then one
growth/churn step per period, both terms computed from the same prior value. -/
def vt_user_total (u : UserGrowthParams) : ℕ → ℚ
  | 0 => u.initial_users
  | t + 1 =>
    vt_user_total u t + vt_user_total u t * u.monthly_growth_rate
      - vt_user_total u t * u.monthly_churn_rate

/-- project_user_growth (lines 340-348): the list starts with the initial
value and the loop `for _ in range(1, months)` appends `months - 1` further
entries, so the result has `max 1 months` entries, periods `0..months-1`
(a single entry when `months = 0`). -/
def project_user_growth (u : UserGrowthParams) (months : ℕ) : List ℚ :=
  (List.range (max 1 months)).map (vt_user_total u)

/-- project_active_users (lines 350-352). -/
def project_active_users (cfg : TCOModel) (months : ℕ) : List ℚ :=
  (project_user_growth cfg.user_growth months).map
    (fun u => u * cfg.user_growth.engagement_rate)

/-! ## Cost schedule generator: calculate_tco (lines 355-419) -/

/-- The `remaining_value` carried by the depreciation loop (lines 361-365)
at the start of year `y`: each year the depreciation charge
`remaining_value * rate * (1+inflation)^y` is subtracted from it. -/
def dep_remaining (cfg : TCOModel) : ℕ → ℚ
  | 0 => cfg.vehicle.base_price
  | y + 1 =>
    dep_remaining cfg y -
      dep_remaining cfg y * depreciation_rate_of cfg.vehicle.vehicle_type
        * (1 + inflation cfg) ^ y

/-- The annual_depreciation schedule (lines 361-365). -/
def annual_depreciation (cfg : TCOModel) : List ℚ :=
  (List.range cfg.vehicle.ownership_years).map
    (fun y => dep_remaining cfg y * depreciation_rate_of cfg.vehicle.vehicle_type
      * (1 + inflation cfg) ^ y)

/-- One year of the fuel/electricity schedule (lines 367-380). -/
def annual_fuel_cost (cfg : TCOModel) (y : ℕ) : ℚ :=
  let fuel_price := cfg.market.fuel_price * (1 + inflation cfg) ^ y
  let elec_rate := cfg.market.electricity_rate * (1 + inflation cfg) ^ y
  if cfg.vehicle.vehicle_type = "Electric Vehicle" then
    cfg.vehicle.annual_mileage * efficiency_kwh cfg.vehicle.vehicle_type * elec_rate
  else if cfg.vehicle.vehicle_type = "Hybrid" then
    (cfg.vehicle.annual_mileage * (7/10) / efficiency_mpg cfg.vehicle.vehicle_type) * fuel_price
      + (cfg.vehicle.annual_mileage * (3/10) * efficiency_kwh cfg.vehicle.vehicle_type) * elec_rate
  else
    (cfg.vehicle.annual_mileage / efficiency_mpg cfg.vehicle.vehicle_type) * fuel_price

/-- The annual_fuel schedule (lines 368-380). -/
def annual_fuel (cfg : TCOModel) : List ℚ :=
  (List.range cfg.vehicle.ownership_years).map (annual_fuel_cost cfg)

/-- The annual maintenance schedule (line 383): rate escalates 10% per year
of age on top of inflation. -/
def annual_maint (cfg : TCOModel) : List ℚ :=
  (List.range cfg.vehicle.ownership_years).map
    (fun (y : ℕ) => cfg.vehicle.annual_mileage * maint_rate_of cfg.vehicle.vehicle_type
      * (1 + (y : ℚ) * (1/10)) * (1 + inflation cfg) ^ y)

/-- The `rem_val` variable of the insurance loop (lines 386-390) and of the
registration loop (lines 393-397) at the start of year `y`.  The source keeps
two separate variables, but both are initialized to `base_price` and both are
multiplied by `(1 - depreciation_rate)` once per year, so they are pointwise
equal and are embedded as this single tracker.  It is NOT the
`remaining_value` of the depreciation loop (`dep_remaining`). -/
def decayed_remaining (cfg : TCOModel) : ℕ → ℚ
  | 0 => cfg.vehicle.base_price
  | y + 1 =>
    decayed_remaining cfg y * (1 - depreciation_rate_of cfg.vehicle.vehicle_type)

/-- The annual_ins schedule (lines 385-390). -/
def annual_ins (cfg : TCOModel) : List ℚ :=
  (List.range cfg.vehicle.ownership_years).map
    (fun y => decayed_remaining cfg y * ins_rate_of cfg.vehicle.vehicle_type
      * (1 + inflation cfg) ^ y)

/-- The annual_reg schedule (lines 392-397). -/
def annual_reg (cfg : TCOModel) : List ℚ :=
  (List.range cfg.vehicle.ownership_years).map
    (fun y => decayed_remaining cfg y * reg_rate_of cfg.vehicle.vehicle_type
      * (1 + inflation cfg) ^ y)

/-- The result dictionary of calculate_tco (lines 402-418). -/
structure TCOResult where
  total_tco : ℚ
  tco_per_mile : ℚ
  breakdown_depreciation : ℚ
  breakdown_fuel : ℚ
  breakdown_maintenance : ℚ
  breakdown_insurance : ℚ
  breakdown_registration : ℚ
  annual_depreciation : List ℚ
  annual_fuel : List ℚ
  annual_maintenance : List ℚ
  annual_insurance : List ℚ
  annual_registration : List ℚ
  deriving DecidableEq

/-- calculate_tco (lines 355-419).  `tco_per_mile` divides by
`annual_mileage * ownership_years`; in Python a zero divisor raises, in ℚ
the quotient is 0 — claims about this function therefore assume a positive
mileage and horizon. -/
def calculate_tco (cfg : TCOModel) : TCOResult :=
  let dep := annual_depreciation cfg
  let fuel := annual_fuel cfg
  let maint := annual_maint cfg
  let ins := annual_ins cfg
  let reg := annual_reg cfg
  let total_tco := dep.sum + fuel.sum + maint.sum + ins.sum + reg.sum
  let total_miles := cfg.vehicle.annual_mileage * (cfg.vehicle.ownership_years : ℚ)
  { total_tco := total_tco
    tco_per_mile := total_tco / total_miles
    breakdown_depreciation := dep.sum
    breakdown_fuel := fuel.sum
    breakdown_maintenance := maint.sum
    breakdown_insurance := ins.sum
    breakdown_registration := reg.sum
    annual_depreciation := dep
    annual_fuel := fuel
    annual_maintenance := maint
    annual_insurance := ins
    annual_registration := reg }

/-! ## Revenue streams of the TCO variant: calculate_revenue_streams (lines 422-453) -/

/-- The tier multiplier resolved at line 424:
`self.partnership_multipliers.get(self.partnership.partnership_tier, 1.5)`. -/
def tier_mult (cfg : TCOModel) : ℚ :=
  partnership_multipliers cfg.partnership.partnership_tier

/-- `service_rev` (line 427): list cardinality times 200 times the tier
multiplier times the mean of the monthly active-user trajectory. -/
def vt_service_rev (cfg : TCOModel) (months : ℕ) : ℚ :=
  (cfg.partnership.service_providers.length : ℚ) * 200 * tier_mult cfg
    * np_mean (project_active_users cfg months)

/-- `insurance_rev` (line 428). -/
def vt_insurance_rev (cfg : TCOModel) (months : ℕ) : ℚ :=
  (cfg.partnership.insurance_partners.length : ℚ) * 150 * tier_mult cfg
    * np_mean (project_active_users cfg months)

/-- `parts_rev` (line 429). -/
def vt_parts_rev (cfg : TCOModel) (months : ℕ) : ℚ :=
  (cfg.partnership.parts_retailers.length : ℚ) * 100 * tier_mult cfg
    * np_mean (project_active_users cfg months)

/-- `fuel_rev` (line 430). -/
def vt_fuel_rev (cfg : TCOModel) (months : ℕ) : ℚ :=
  (cfg.partnership.fuel_partners.length : ℚ) * 120 * tier_mult cfg
    * np_mean (project_active_users cfg months)

/-- `fin_rev` (line 431). -/
def vt_fin_rev (cfg : TCOModel) (months : ℕ) : ℚ :=
  (cfg.partnership.financial_services.length : ℚ) * 180 * tier_mult cfg
    * np_mean (project_active_users cfg months)

/-- `data_rev` (line 432). -/
def vt_data_rev (cfg : TCOModel) (months : ℕ) : ℚ :=
  (cfg.partnership.data_providers.length : ℚ) * 250 * tier_mult cfg
    * np_mean (project_active_users cfg months)

/-- `ent_rev` (line 433): scales with partner count, not population. -/
def vt_ent_rev (cfg : TCOModel) : ℚ :=
  (cfg.partnership.enterprise_solutions.length : ℚ) * 1000 * tier_mult cfg
    * cfg.partnership.partner_count

/-- `base_fee` (line 434). -/
def vt_base_fee (cfg : TCOModel) : ℚ :=
  1000 * tier_mult cfg * cfg.partnership.partner_count

/-- `saas_rev` (line 435): 5 times the sum of the active-user trajectory. -/
def vt_saas_rev (cfg : TCOModel) (months : ℕ) : ℚ :=
  5 * (project_active_users cfg months).sum

/-- `total_annual` (line 436): the single aggregate year-1 annual revenue,
the sum of the nine stream amounts. -/
def vt_total_annual (cfg : TCOModel) (months : ℕ) : ℚ :=
  vt_service_rev cfg months + vt_insurance_rev cfg months + vt_parts_rev cfg months
    + vt_fuel_rev cfg months + vt_fin_rev cfg months + vt_data_rev cfg months
    + vt_ent_rev cfg + vt_base_fee cfg + vt_saas_rev cfg months

/-- The result dictionary of calculate_revenue_streams (lines 440-453). -/
structure RevenueStreams where
  total_revenue : ℚ
  revenue_growth : ℚ
  annual_revenue : List ℚ
  service_providers : ℚ
  insurance_partners : ℚ
  parts_retailers : ℚ
  fuel_partners : ℚ
  financial_services : ℚ
  data_providers : ℚ
  enterprise_solutions : ℚ
  partnership_fees : ℚ
  user_saas : ℚ
  deriving DecidableEq

/-- calculate_revenue_streams (lines 422-453).  `annual_revenue` grows the
single aggregate by a flat 15% per year of the ownership horizon (line 437);
`revenue_growth` guards its division behind `len(annual_revenue) > 1`
(line 439; the guarded division by `annual_revenue[0]` is total in ℚ). -/
def calculate_revenue_streams (cfg : TCOModel) (months : ℕ) : RevenueStreams :=
  let annual_revenue := (List.range cfg.vehicle.ownership_years).map
    (fun y => vt_total_annual cfg months * (1 + 15/100) ^ y)
  { total_revenue := annual_revenue.sum
    revenue_growth :=
      if 1 < annual_revenue.length then
        (annual_revenue.getLastD 0 / annual_revenue.headD 0 - 1) * 100
      else 0
    annual_revenue := annual_revenue
    service_providers := vt_service_rev cfg months
    insurance_partners := vt_insurance_rev cfg months
    parts_retailers := vt_parts_rev cfg months
    fuel_partners := vt_fuel_rev cfg months
    financial_services := vt_fin_rev cfg months
    data_providers := vt_data_rev cfg months
    enterprise_solutions := vt_ent_rev cfg
    partnership_fees := vt_base_fee cfg
    user_saas := vt_saas_rev cfg months }

/-! ## Break-even analysis (lines 464-476) -/

/-- The result dictionary of break_even_analysis.  `break_even_months` is
`Option ℚ`, where `none` models the source's `float(+inf)` branch. -/
structure BreakEvenResult where
  annual_tco : ℚ
  annual_revenue : ℚ
  break_even_months : Option ℚ
  profitable : Bool
  deriving DecidableEq

/-- break_even_analysis (lines 464-476): annualizes the TCO and the revenue
of `calculate_revenue_streams()` (its default horizon, 60 months) over the
ownership horizon; returns `12 * annual_tco / annual_revenue` when revenue
strictly exceeds TCO, `inf` (here `none`) otherwise. -/
def break_even_analysis (cfg : TCOModel) : BreakEvenResult :=
  let tco := (calculate_tco cfg).total_tco
  let revenue := (calculate_revenue_streams cfg 60).total_revenue
  let annual_tco := tco / (cfg.vehicle.ownership_years : ℚ)
  let annual_revenue := revenue / (cfg.vehicle.ownership_years : ℚ)
  { annual_tco := annual_tco
    annual_revenue := annual_revenue
    break_even_months :=
      if annual_tco < annual_revenue then some (12 * (annual_tco / annual_revenue))
      else none
    profitable := decide (annual_tco < annual_revenue) }

/-- Replace only the partnership tier of a configuration, the way a caller
constructs `PartnershipParams(partnership_tier=t)`. -/
def setTier (cfg : TCOModel) (t : String) : TCOModel :=
  { cfg with partnership := { cfg.partnership with partnership_tier := t } }

/-! ## Helper lemmas -/

/-- getD of a map over `List.range` evaluates the mapped function. -/
theorem list_getD_map_range {α : Type} (f : ℕ → α) (d : α) (n i : ℕ) (h : i < n) :
    ((List.range n).map f).getD i d = f i := by
  rw [List.getD_eq_getElem?_getD, List.getElem?_map, List.getElem?_range h]
  rfl

/-- headD is getD at index 0. -/
theorem list_headD_eq_getD {α : Type} (l : List α) (d : α) : l.headD d = l.getD 0 d := by
  cases l <;> rfl

/-- The insurance/registration tracker decays geometrically from the base price. -/
theorem decayed_remaining_closed (cfg : TCOModel) (y : ℕ) :
    decayed_remaining cfg y =
      cfg.vehicle.base_price * (1 - depreciation_rate_of cfg.vehicle.vehicle_type) ^ y := by
  induction y with
  | zero => simp [decayed_remaining]
  | succ n ih => rw [decayed_remaining, ih, pow_succ]; ring

/-- Writing back the saved value undoes a parameter overwrite. -/
theorem setParam_restore (m : PModel) (r : ParamRef) (v : ℚ) :
    setParam (setParam m r v) r (getParam m r) = m := by
  cases r <;> rfl

/-! ## Claims -/

/-- Claim C1 (corrected).  The growth/churn recurrence
`pop[t] = pop[t-1] * (1 + growth_rate - churn_rate)` holds exactly, with both
terms computed against the same prior value, for every entry of the sequence
returned by `project_user_growth` and for the real-valued population
`base_users` tracked by `calculate_user_metrics`; every row of the
`run_projection` table reports the `int()`-truncation of that value (the
truncated column values themselves can break the exact recurrence, see the
counterexample). -/
theorem C1_population_recurrence :
    (∀ (u : UserGrowthParams) (t : ℕ),
      vt_user_total u (t + 1) =
        vt_user_total u t * (1 + u.monthly_growth_rate - u.monthly_churn_rate)) ∧
    (∀ (u : UserGrowthParams) (months t : ℕ), t + 1 < max 1 months →
      (project_user_growth u months).getD (t + 1) 0 =
        (project_user_growth u months).getD t 0 *
          (1 + u.monthly_growth_rate - u.monthly_churn_rate)) ∧
    (∀ (m : PModel) (t : ℕ),
      base_users m (t + 1) =
        base_users m t * (1 + m.user_base.monthly_growth_rate - m.user_base.churn_rate)) ∧
    (∀ (m : PModel) (months t : ℕ), t < months + 1 →
      ((run_projection m months).getD t mrow0).total_users = py_int (base_users m t)) := by
  refine ⟨?_, ?_, ?_, ?_⟩
  · intro u t
    rw [vt_user_total]
    ring
  · intro u months t h
    rw [project_user_growth, list_getD_map_range _ _ _ _ h,
      list_getD_map_range _ _ _ _ (Nat.lt_of_succ_lt h), vt_user_total]
    ring
  · intro m t
    rw [base_users]
    ring
  · intro m months t h
    rw [run_projection, list_getD_map_range _ _ _ _ h]
    rfl

/-- Witness for C1: the recurrence and the truncation formula at period 2 of
concrete projections. -/
theorem C1_population_recurrence_witness :
    (1 + 1 < max 1 3 ∧
      (project_user_growth defaultTCOModel.user_growth 3).getD 2 0 =
        (project_user_growth defaultTCOModel.user_growth 3).getD 1 0 *
          (1 + defaultTCOModel.user_growth.monthly_growth_rate
            - defaultTCOModel.user_growth.monthly_churn_rate)) ∧
    (2 < 2 + 1 ∧
      ((run_projection defaultPModel 2).getD 2 mrow0).total_users =
        py_int (base_users defaultPModel 2)) :=
  ⟨⟨by decide, C1_population_recurrence.2.1 defaultTCOModel.user_growth 3 1 (by decide)⟩,
   ⟨by decide, C1_population_recurrence.2.2.2 defaultPModel 2 2 (by decide)⟩⟩

/-- Counterexample to C1 as stated: in the default partnership configuration
the table row of month 2 carries `total_users = 27562` (the truncation of
27562.5) while the prior row's total times `(1 + 0.08 - 0.03)` is 27562.5, so
the reported totals do not satisfy the exact recurrence. -/
theorem C1_table_counterexample :
    (((run_projection defaultPModel 2).getD 2 mrow0).total_users : ℚ) ≠
      (((run_projection defaultPModel 2).getD 1 mrow0).total_users : ℚ) *
        (1 + defaultPModel.user_base.monthly_growth_rate
          - defaultPModel.user_base.churn_rate) := by
  rw [run_projection, list_getD_map_range _ _ _ _ (by norm_num),
    list_getD_map_range _ _ _ _ (by norm_num)]
  simp only [calculate_monthly_revenue, calculate_user_metrics]
  norm_num [py_int, base_users, defaultPModel]

/-- Claim C7 (corrected).  `run_projection(N)` does return N+1 rows covering
periods 0..N in ascending order; but `project_user_growth(N)` returns
`max 1 N` entries — periods 0..N-1 (one entry when N = 0) — not N+1. -/
theorem C7_projection_length :
    (∀ (m : PModel) (months : ℕ),
      (run_projection m months).length = months + 1 ∧
      ∀ t, t < months + 1 → ((run_projection m months).getD t mrow0).month = t) ∧
    (∀ (u : UserGrowthParams) (months : ℕ),
      (project_user_growth u months).length = max 1 months ∧
      ∀ t, t < max 1 months → (project_user_growth u months).getD t 0 = vt_user_total u t) := by
  constructor
  · intro m months
    constructor
    · simp [run_projection]
    · intro t h
      rw [run_projection, list_getD_map_range _ _ _ _ h]
      rfl
  · intro u months
    constructor
    · simp [project_user_growth]
    · intro t h
      rw [project_user_growth, list_getD_map_range _ _ _ _ h]

/-- Witness for C7: row 1 of a 2-month projection has period 1, and entry 1
of a 3-month growth projection is the period-1 population. -/
theorem C7_projection_witness :
    (1 < 2 + 1 ∧ ((run_projection defaultPModel 2).getD 1 mrow0).month = 1) ∧
    (1 < max 1 3 ∧
      (project_user_growth defaultTCOModel.user_growth 3).getD 1 0 =
        vt_user_total defaultTCOModel.user_growth 1) :=
  ⟨⟨by decide, (C7_projection_length.1 defaultPModel 2).2 1 (by decide)⟩,
   ⟨by decide, (C7_projection_length.2 defaultTCOModel.user_growth 3).2 1 (by decide)⟩⟩

/-- Counterexample to C7 as stated: `project_user_growth(3)` has 3 entries,
not 3 + 1 — the sequence stops at period N-1, not period N. -/
theorem C7_length_counterexample :
    (project_user_growth defaultTCOModel.user_growth 3).length ≠ 3 + 1 := by
  decide

/-- Claim C2 (confirmed).  Per-period totals are exact sums of the reported
stream amounts: in the partnership variant every row's
`total_monthly_revenue` is exactly the sum of its five stream amounts, and in
the TCO variant the year-1 entry of `annual_revenue` (the local
`total_annual`) is exactly the sum of the nine reported stream amounts. -/
theorem C2_total_is_sum_of_streams :
    (∀ (m : PModel) (month : ℕ),
      (calculate_monthly_revenue m month).total_monthly_revenue =
        (calculate_monthly_revenue m month).service_revenue
          + (calculate_monthly_revenue m month).insurance_revenue
          + (calculate_monthly_revenue m month).parts_revenue
          + (calculate_monthly_revenue m month).financial_revenue
          + (calculate_monthly_revenue m month).data_revenue) ∧
    (∀ (cfg : TCOModel) (months : ℕ), 1 ≤ cfg.vehicle.ownership_years →
      (calculate_revenue_streams cfg months).annual_revenue.headD 0 =
        (calculate_revenue_streams cfg months).service_providers
          + (calculate_revenue_streams cfg months).insurance_partners
          + (calculate_revenue_streams cfg months).parts_retailers
          + (calculate_revenue_streams cfg months).fuel_partners
          + (calculate_revenue_streams cfg months).financial_services
          + (calculate_revenue_streams cfg months).data_providers
          + (calculate_revenue_streams cfg months).enterprise_solutions
          + (calculate_revenue_streams cfg months).partnership_fees
          + (calculate_revenue_streams cfg months).user_saas) := by
  constructor
  · intro m month
    rfl
  · intro cfg months h
    simp only [calculate_revenue_streams]
    rw [list_headD_eq_getD, list_getD_map_range _ _ _ _ (by omega)]
    rw [pow_zero, mul_one]
    rfl

/-- Witness for C2: the TCO-variant sum identity at the default configuration. -/
theorem C2_total_is_sum_witness :
    1 ≤ defaultTCOModel.vehicle.ownership_years ∧
    (calculate_revenue_streams defaultTCOModel 60).annual_revenue.headD 0 =
      (calculate_revenue_streams defaultTCOModel 60).service_providers
        + (calculate_revenue_streams defaultTCOModel 60).insurance_partners
        + (calculate_revenue_streams defaultTCOModel 60).parts_retailers
        + (calculate_revenue_streams defaultTCOModel 60).fuel_partners
        + (calculate_revenue_streams defaultTCOModel 60).financial_services
        + (calculate_revenue_streams defaultTCOModel 60).data_providers
        + (calculate_revenue_streams defaultTCOModel 60).enterprise_solutions
        + (calculate_revenue_streams defaultTCOModel 60).partnership_fees
        + (calculate_revenue_streams defaultTCOModel 60).user_saas :=
  ⟨by decide, C2_total_is_sum_of_streams.2 defaultTCOModel 60 (by decide)⟩

/-- Claim C6 (confirmed).  In the TCO variant, every year's revenue is the
single aggregate `total_annual` — built from the mean (and, for the SaaS
stream, the sum) of the monthly active-user trajectory over the full horizon
(`vt_total_annual`) — multiplied by the flat compounding factor
`(1 + 0.15)^y`; future years are never re-derived from the population
recurrence. -/
theorem C6_flat_growth_from_aggregate (cfg : TCOModel) (months y : ℕ)
    (h : y < cfg.vehicle.ownership_years) :
    (calculate_revenue_streams cfg months).annual_revenue.getD y 0 =
      vt_total_annual cfg months * (1 + 15/100) ^ y := by
  simp only [calculate_revenue_streams]
  rw [list_getD_map_range _ _ _ _ h]

/-- Witness for C6: year 1 of the default configuration. -/
theorem C6_flat_growth_witness :
    1 < defaultTCOModel.vehicle.ownership_years ∧
    (calculate_revenue_streams defaultTCOModel 60).annual_revenue.getD 1 0 =
      vt_total_annual defaultTCOModel 60 * (1 + 15/100) ^ 1 :=
  ⟨by decide, C6_flat_growth_from_aggregate defaultTCOModel 60 1 (by decide)⟩

/-- Claim C8 (confirmed).  Any tier string other than Basic, Premium and
Enterprise resolves to the default multiplier 1.5 — the Premium value, not
1.0 and not an error: the revenue streams computed under such a tier are
identical to those computed under Premium. -/
theorem C8_unknown_tier_premium_default (tier : String) (cfg : TCOModel) (months : ℕ)
    (h1 : tier ≠ basicTier) (h2 : tier ≠ premiumTier) (h3 : tier ≠ enterpriseTier) :
    partnership_multipliers tier = 3/2 ∧
    calculate_revenue_streams (setTier cfg tier) months =
      calculate_revenue_streams (setTier cfg premiumTier) months := by
  have hm : partnership_multipliers tier = 3/2 := by
    simp only [basicTier] at h1
    simp only [premiumTier] at h2
    simp only [enterpriseTier] at h3
    rw [partnership_multipliers, if_neg h1, if_neg h2, if_neg h3]
  have key : partnership_multipliers tier = partnership_multipliers premiumTier := by
    rw [hm]
    rfl
  refine ⟨hm, ?_⟩
  simp only [calculate_revenue_streams, vt_total_annual, vt_service_rev, vt_insurance_rev,
    vt_parts_rev, vt_fuel_rev, vt_fin_rev, vt_data_rev, vt_ent_rev, vt_base_fee,
    vt_saas_rev, tier_mult, setTier, project_active_users, project_user_growth, key]

/-- Witness for C8: the concrete tier string Unknown at the default
configuration. -/
theorem C8_unknown_tier_witness :
    (unknownTier ≠ basicTier ∧ unknownTier ≠ premiumTier ∧ unknownTier ≠ enterpriseTier) ∧
    partnership_multipliers unknownTier = 3/2 ∧
    calculate_revenue_streams (setTier defaultTCOModel unknownTier) 60 =
      calculate_revenue_streams (setTier defaultTCOModel premiumTier) 60 :=
  ⟨⟨by decide, by decide, by decide⟩,
   C8_unknown_tier_premium_default unknownTier defaultTCOModel 60
     (by decide) (by decide) (by decide)⟩

/-- Claim C10 (confirmed).  When the parameter name has no dot, the `if`
guards of `sensitivity_analysis` skip every save/overwrite/restore, so the
model is never mutated and every row of the returned table carries the same
`final_revenue` — the terminal total revenue of the unperturbed projection —
whatever the candidate values are. -/
theorem C10_plain_parameter_no_effect (name : Fin 6) (values : List ℚ) (m : PModel)
    (months : ℕ) :
    (sensitivity_analysis m (SweepParam.plain name) values months).1 = m ∧
    (sensitivity_analysis m (SweepParam.plain name) values months).2 =
      Except.ok (values.map (fun v =>
        { parameter_value := v
          final_revenue := terminal_revenue m months
          revenue_change_pct :=
            (terminal_revenue m months / initial_revenue m months - 1) * 100 })) := by
  induction values with
  | nil => exact ⟨rfl, rfl⟩
  | cons v rest ih =>
    refine ⟨?_, ?_⟩
    · show (sweepLoop _ _ (v :: rest) m).1 = m
      simp only [sweepLoop]
      exact ih.1
    · show (sweepLoop _ _ (v :: rest) m).2 = _
      simp only [sweepLoop, List.map_cons]
      rw [show (sweepLoop (fun mm => Except.ok (run_projection mm months))
        (SweepParam.plain name) rest m).2 = _ from ih.2]
      rfl

/-- Claim C3 (corrected).  With the model's actual rerun step — which can
never raise — `sensitivity_analysis` always leaves the configuration exactly
as it found it: every dotted candidate value is applied, used for one rerun,
and the saved original is written back, for every parameter and value list.
The claim's stronger clause — that the restore would also happen when a rerun
raises — is false: the loop has no scoped release, see the counterexample. -/
theorem C3_configuration_restored (p : SweepParam) (values : List ℚ) (m : PModel)
    (months : ℕ) :
    (sensitivity_analysis m p values months).1 = m := by
  induction values generalizing m with
  | nil => rfl
  | cons v rest ih =>
    cases p with
    | field r =>
      show (sweepLoop _ _ (v :: rest) m).1 = m
      simp only [sweepLoop]
      rw [setParam_restore]
      exact ih m
    | plain n =>
      show (sweepLoop _ _ (v :: rest) m).1 = m
      simp only [sweepLoop]
      exact ih m

/-- Counterexample to C3 as stated: if the rerun for a candidate value
raises, the exception propagates before the restore line runs, leaving the
candidate value applied — the final state differs from the initial one. -/
theorem C3_no_restore_on_error_counterexample :
    (sweepLoop (fun _ => Except.error ()) (SweepParam.field ParamRef.ub_monthly_growth_rate)
      [1/2] defaultPModel).1 ≠ defaultPModel := by
  intro h
  have h2 := congrArg (fun mm => mm.user_base.monthly_growth_rate) h
  simp only [sweepLoop, setParam, getParam, defaultPModel] at h2
  norm_num at h2

/-- Claim C9 (corrected).  A computation error in a rerun is not caught: the
whole sweep aborts with that error — no zero or null row is recorded for the
failing value and the remaining candidate values are never evaluated. -/
theorem C9_error_aborts_sweep (rerun : PModel → Except Unit (List MonthRow))
    (r : ParamRef) (v : ℚ) (rest : List ℚ) (m : PModel)
    (h : rerun (setParam m r v) = Except.error ()) :
    (sweepLoop rerun (SweepParam.field r) (v :: rest) m).2 = Except.error () := by
  simp only [sweepLoop, h]

/-- Witness for C9: a rerun that fails on the first candidate value. -/
theorem C9_error_aborts_sweep_witness :
    ((fun _ : PModel => (Except.error () : Except Unit (List MonthRow)))
        (setParam defaultPModel ParamRef.ub_monthly_growth_rate (1/2)) = Except.error ()) ∧
    (sweepLoop (fun _ => Except.error ())
      (SweepParam.field ParamRef.ub_monthly_growth_rate) [1/2, 3/4] defaultPModel).2 =
      Except.error () :=
  ⟨rfl, C9_error_aborts_sweep _ _ _ _ _ rfl⟩

/-- Counterexample to C9 as stated: with a rerun that raises on the perturbed
model, the sweep does not return any table at all — in particular no table
containing a zero/null row for the failing point and results for the
remaining value. -/
theorem C9_no_table_counterexample :
    ¬ ∃ rows, (sweepLoop (fun _ => Except.error ())
      (SweepParam.field ParamRef.ub_churn_rate) [1/100, 2/100] defaultPModel).2 =
        Except.ok rows := by
  rintro ⟨rows, hrows⟩
  simp only [sweepLoop] at hrows
  exact Except.noConfusion hrows

/-- A gasoline configuration with nonzero inflation used to exhibit the
divergence between the insurance/registration tracker and the depreciation
book value. -/
def cfgC5 : TCOModel :=
  { vehicle := { vehicle_type := gasType, base_price := 10000,
                 annual_mileage := 1, ownership_years := 3 }
    partnership := defaultTCOModel.partnership
    market := { fuel_price := 0, electricity_rate := 0, inflation_rate := 100 }
    user_growth := defaultTCOModel.user_growth }

/-- Claim C5 (confirmed).  Insurance and registration costs of year `y` are
computed from their own remaining-value tracker, which starts at
`base_price` and decays geometrically by the vehicle's depreciation rate —
`base_price * (1 - d)^y` — and that tracker is not the carried-forward book
value of the depreciation category: at cfgC5 (inflation 100%) the two differ
already in year 2 (6400 versus 4800). -/
theorem C5_separate_value_trackers :
    (∀ (cfg : TCOModel) (y : ℕ), y < cfg.vehicle.ownership_years →
      (calculate_tco cfg).annual_insurance.getD y 0 =
        cfg.vehicle.base_price * (1 - depreciation_rate_of cfg.vehicle.vehicle_type) ^ y
          * ins_rate_of cfg.vehicle.vehicle_type * (1 + inflation cfg) ^ y ∧
      (calculate_tco cfg).annual_registration.getD y 0 =
        cfg.vehicle.base_price * (1 - depreciation_rate_of cfg.vehicle.vehicle_type) ^ y
          * reg_rate_of cfg.vehicle.vehicle_type * (1 + inflation cfg) ^ y) ∧
    decayed_remaining cfgC5 2 ≠ dep_remaining cfgC5 2 := by
  constructor
  · intro cfg y h
    constructor
    · simp only [calculate_tco, annual_ins]
      rw [list_getD_map_range _ _ _ _ h, decayed_remaining_closed]
    · simp only [calculate_tco, annual_reg]
      rw [list_getD_map_range _ _ _ _ h, decayed_remaining_closed]
  · rw [show (2 : ℕ) = 0 + 1 + 1 by rfl]
    simp only [decayed_remaining, dep_remaining, depreciation_rate_of, inflation,
      cfgC5, gasType, String.reduceEq, reduceIte]
    norm_num

/-- Witness for C5: the year-1 insurance and registration formulas at cfgC5. -/
theorem C5_separate_value_trackers_witness :
    1 < cfgC5.vehicle.ownership_years ∧
    ((calculate_tco cfgC5).annual_insurance.getD 1 0 =
      cfgC5.vehicle.base_price * (1 - depreciation_rate_of cfgC5.vehicle.vehicle_type) ^ 1
        * ins_rate_of cfgC5.vehicle.vehicle_type * (1 + inflation cfgC5) ^ 1 ∧
    (calculate_tco cfgC5).annual_registration.getD 1 0 =
      cfgC5.vehicle.base_price * (1 - depreciation_rate_of cfgC5.vehicle.vehicle_type) ^ 1
        * reg_rate_of cfgC5.vehicle.vehicle_type * (1 + inflation cfgC5) ^ 1) :=
  ⟨by decide, C5_separate_value_trackers.1 cfgC5 1 (by decide)⟩

/-- Claim C4 (corrected).  `break_even_months` is `inf` (`none`) exactly when
`annual_revenue <= annual_tco`; otherwise it is `12 * annual_tco /
annual_revenue`, which is finite, and strictly positive provided
`annual_tco > 0` — but the source does not guarantee positivity for every
configuration: a (by the stated validity taxonomy, admissible) configuration
with extreme inflation drives `total_tco`, and with it `break_even_months`,
negative (see the counterexample). -/
theorem C4_break_even_formula (cfg : TCOModel) (_hy : 0 < cfg.vehicle.ownership_years) :
    ((break_even_analysis cfg).annual_revenue ≤ (break_even_analysis cfg).annual_tco →
      (break_even_analysis cfg).break_even_months = none) ∧
    ((break_even_analysis cfg).annual_tco < (break_even_analysis cfg).annual_revenue →
      (break_even_analysis cfg).break_even_months =
        some (12 * ((break_even_analysis cfg).annual_tco
          / (break_even_analysis cfg).annual_revenue))) ∧
    (0 < (break_even_analysis cfg).annual_tco →
      (break_even_analysis cfg).annual_tco < (break_even_analysis cfg).annual_revenue →
      0 < (break_even_analysis cfg).break_even_months.getD 0) := by
  refine ⟨?_, ?_, ?_⟩
  · intro h
    simp only [break_even_analysis] at h ⊢
    rw [if_neg (not_lt.mpr h)]
  · intro h
    simp only [break_even_analysis] at h ⊢
    rw [if_pos h]
  · intro h0 h1
    simp only [break_even_analysis] at h0 h1 ⊢
    rw [if_pos h1, Option.getD_some]
    exact mul_pos (by norm_num) (div_pos h0 (lt_trans h0 h1))

/-- Witness for C4: the break-even formula clauses at the default
configuration. -/
theorem C4_break_even_formula_witness :
    0 < defaultTCOModel.vehicle.ownership_years ∧
    (((break_even_analysis defaultTCOModel).annual_revenue ≤
        (break_even_analysis defaultTCOModel).annual_tco →
      (break_even_analysis defaultTCOModel).break_even_months = none) ∧
    ((break_even_analysis defaultTCOModel).annual_tco <
        (break_even_analysis defaultTCOModel).annual_revenue →
      (break_even_analysis defaultTCOModel).break_even_months =
        some (12 * ((break_even_analysis defaultTCOModel).annual_tco
          / (break_even_analysis defaultTCOModel).annual_revenue))) ∧
    (0 < (break_even_analysis defaultTCOModel).annual_tco →
      (break_even_analysis defaultTCOModel).annual_tco <
        (break_even_analysis defaultTCOModel).annual_revenue →
      0 < (break_even_analysis defaultTCOModel).break_even_months.getD 0)) :=
  ⟨by decide, C4_break_even_formula defaultTCOModel (by decide)⟩

/-- A configuration that is not excluded by the stated validity taxonomy
(no negative rates, positive horizon and mileage, known vehicle class and
tier) whose 900% inflation rate drives the depreciation book value, and with
it the total TCO, negative.  Users start at zero so the revenue side is the
easily computed 2000 per year. -/
def cfgC4 : TCOModel :=
  { vehicle := { vehicle_type := gasType, base_price := 20000,
                 annual_mileage := 25, ownership_years := 3 }
    partnership := { partnership_tier := basicTier, partner_count := 1
                     service_providers := []
                     insurance_partners := []
                     parts_retailers := []
                     fuel_partners := []
                     financial_services := []
                     data_providers := []
                     enterprise_solutions := [ "Fleet Management"] }
    market := { fuel_price := 0, electricity_rate := 0, inflation_rate := 900 }
    user_growth := { initial_users := 0, monthly_growth_rate := 4/100,
                     monthly_churn_rate := 1/100, engagement_rate := 7/10 } }

/-- Counterexample to C4 as stated: at cfgC4 the revenue side strictly
exceeds the (negative) annualized TCO, yet `break_even_months` is a strictly
negative number rather than a strictly positive one. -/
theorem C4_negative_break_even_counterexample :
    (break_even_analysis cfgC4).annual_tco < (break_even_analysis cfgC4).annual_revenue ∧
    (break_even_analysis cfgC4).break_even_months.getD 0 < 0 := by
  have hz : ∀ t, vt_user_total cfgC4.user_growth t = 0 := by
    intro t
    induction t with
    | zero => rfl
    | succ n ih => rw [vt_user_total, ih]; ring
  have hmem : ∀ x ∈ project_active_users cfgC4 60, x = 0 := by
    intro x hx
    simp only [project_active_users, project_user_growth, List.mem_map,
      List.mem_range] at hx
    obtain ⟨u, ⟨t, ht, rfl⟩, rfl⟩ := hx
    rw [hz]
    ring
  have hsum : (project_active_users cfgC4 60).sum = 0 := List.sum_eq_zero hmem
  have hmean : np_mean (project_active_users cfgC4 60) = 0 := by
    rw [np_mean, hsum, zero_div]
  have htotal : vt_total_annual cfgC4 60 = 2000 := by
    rw [vt_total_annual, vt_service_rev, vt_insurance_rev, vt_parts_rev, vt_fuel_rev,
      vt_fin_rev, vt_data_rev, vt_ent_rev, vt_base_fee, vt_saas_rev, hmean, hsum]
    simp [tier_mult, partnership_multipliers, cfgC4, basicTier]
    norm_num
  have hrev : (calculate_revenue_streams cfgC4 60).total_revenue = 6945 := by
    simp only [calculate_revenue_streams]
    rw [show cfgC4.vehicle.ownership_years = 3 from rfl]
    simp only [List.range_succ, List.range_zero, List.map_append, List.map_cons,
      List.map_nil, List.sum_append, List.sum_cons, List.sum_nil, List.nil_append,
      htotal]
    norm_num
  have hd1 : dep_remaining cfgC4 1 = 16000 := by
    rw [show (1 : ℕ) = 0 + 1 from rfl]
    simp only [dep_remaining, depreciation_rate_of, inflation, cfgC4, gasType,
      String.reduceEq, reduceIte]
    norm_num
  have hd2 : dep_remaining cfgC4 2 = -16000 := by
    rw [show (2 : ℕ) = 0 + 1 + 1 from rfl]
    simp only [dep_remaining, depreciation_rate_of, inflation, cfgC4, gasType,
      String.reduceEq, reduceIte]
    norm_num
  have hc1 : decayed_remaining cfgC4 1 = 16000 := by
    rw [show (1 : ℕ) = 0 + 1 from rfl]
    simp only [decayed_remaining, depreciation_rate_of, cfgC4, gasType,
      String.reduceEq, reduceIte]
    norm_num
  have hc2 : decayed_remaining cfgC4 2 = 12800 := by
    rw [show (2 : ℕ) = 0 + 1 + 1 from rfl]
    simp only [decayed_remaining, depreciation_rate_of, cfgC4, gasType,
      String.reduceEq, reduceIte]
    norm_num
  have htco : (calculate_tco cfgC4).total_tco = -188704 := by
    simp only [calculate_tco, annual_depreciation, annual_fuel, annual_maint,
      annual_ins, annual_reg]
    rw [show cfgC4.vehicle.ownership_years = 3 from rfl]
    simp only [List.range_succ, List.range_zero, List.map_append, List.map_cons,
      List.map_nil, List.sum_append, List.sum_cons, List.sum_nil, List.nil_append,
      annual_fuel_cost, hd1, hd2, hc1, hc2]
    simp only [dep_remaining, decayed_remaining, depreciation_rate_of, maint_rate_of,
      ins_rate_of, reg_rate_of, inflation, efficiency_mpg, efficiency_kwh, cfgC4,
      gasType, String.reduceEq, reduceIte]
    norm_num
  constructor
  · show (break_even_analysis cfgC4).annual_tco < (break_even_analysis cfgC4).annual_revenue
    simp only [break_even_analysis, htco, hrev]
    rw [show cfgC4.vehicle.ownership_years = 3 from rfl]
    norm_num
  · simp only [break_even_analysis, htco, hrev]
    rw [show cfgC4.vehicle.ownership_years = 3 from rfl]
    rw [if_pos (by norm_num), Option.getD_some]
    norm_num
